import Mathlib

/-!
Shallow embedding of the websurfx search route (`src/server/routes/search.rs`)
and the parts of its environment (cache, filter lists, engine registry,
aggregator) that the route interacts with.  Effectful collaborators that live
outside the translated file (the redis cache, the regex engine, serde, the
aggregator) are abstracted as fields of an `Env` record; the control flow of
`results`, `search` and `is_match_from_filter_list` is translated statement by
statement from the source.  Each run additionally records a trace of the
externally visible operations (cache read, filter-list checks, aggregator
invocation, cache write) so that ordering and "never invoked" properties can
be stated.
-/

deriving instance DecidableEq for Except

namespace Websurfx

/-- Presentation style metadata (`config.style`): theme and colorscheme. -/
structure Style where
  theme : String
  colorscheme : String
deriving DecidableEq, Repr

/-- Modelled from the spec: per-engine error record (provider name plus an
error classification); `models/engine_models` is not under `src/`. -/
structure EngineErrorInfo where
  engine : String
  errorKind : String
deriving DecidableEq, Repr

/-- Modelled from the spec: a single search hit (title, url used as dedup key,
snippet, contributing engines); `models/aggregation_models` is not under
`src/`. -/
structure SearchResult where
  title : String
  url : String
  snippet : String
  engines : List String
deriving DecidableEq, Repr

/-- Modelled from the spec: the aggregated result set — ordered results,
per-engine errors, the `disallowed` and `filtered` flags, presentation style
and the page query text; `models/aggregation_models` is not under `src/`. -/
structure SearchResults where
  results : List SearchResult
  engineErrorsInfo : List EngineErrorInfo
  disallowed : Bool
  filtered : Bool
  pageQuery : String
  style : Style
deriving DecidableEq, Repr

/-- Modelled from the spec: `SearchResults::default()` constructs the empty
aggregate with both flags unset. -/
def SearchResults.default : SearchResults :=
  { results := [], engineErrorsInfo := [], disallowed := false,
    filtered := false, pageQuery := "", style := ⟨"", ""⟩ }

/-- Modelled from the spec: `set_disallowed` marks the aggregate blocked by
the filter. -/
def set_disallowed (r : SearchResults) : SearchResults :=
  { r with disallowed := true }

/-- Modelled from the spec: `set_filtered` marks the aggregate as
legitimately empty. -/
def set_filtered (r : SearchResults) : SearchResults :=
  { r with filtered := true }

/-- Modelled from the spec: `add_style` stores presentation metadata on the
aggregate. -/
def add_style (s : Style) (r : SearchResults) : SearchResults :=
  { r with style := s }

/-- Modelled from the spec: `set_page_query` stores the original query text on
the aggregate. -/
def set_page_query (q : String) (r : SearchResults) : SearchResults :=
  { r with pageQuery := q }

/-- Modelled from the spec: an engine handler is a named capability object;
`models/engine_models` is not under `src/`. -/
structure EngineHandler where
  name : String
deriving DecidableEq, Repr

/-- The filter-list file kinds used by the search route
(`handler::paths::FileType`). -/
inductive FileType
  | blockList
  | allowList
  | theme
deriving DecidableEq, Repr

/-- Modelled from the spec: cache-read failures (`cache::error::PoolError`,
not under `src/`): key absent or a connection-level failure. -/
inductive PoolError
  | cacheMiss
  | connectionError
deriving DecidableEq, Repr

/-- The erased error type (`Box<dyn std::error::Error>`) of the route,
tagged by the operation whose `?` produced it. -/
inductive AppError
  | serde
  | pool
  | path
  | io
  | regex
  | engine
deriving DecidableEq, Repr

/-- The engines field of the deserialized `appCookie` cookie value. -/
structure CookieData where
  theme : String
  colorscheme : String
  engines : List String
deriving DecidableEq, Repr

/-- Externally visible operations performed by one `results` invocation,
recorded in order. -/
inductive Event
  | cacheRead (url : String)
  | filterCheckEvent (ft : FileType)
  | aggregateCall (engines : List EngineHandler)
  | cacheWriteEvent (url : String)
deriving DecidableEq, Repr

/-- The effectful collaborators of the search route, abstracted as pure
functions: the redis cache, serde, the filesystem, the regex engine, the
cookie on the request, the aggregator and the engine registry. -/
structure Env where
  cachedJson : String → Except PoolError String
  deserializeResults : String → Except Unit SearchResults
  serializeResults : SearchResults → Except Unit String
  cacheWrite : String → String → Except PoolError Unit
  filePathOf : FileType → Except Unit String
  openLines : String → Except Unit (List String)
  regexCompile : String → Except Unit (String → Bool)
  reqCookie : Option String
  parseCookie : String → Except Unit CookieData
  engineHandlerNew : String → Option EngineHandler
  aggregate : String → Nat → Bool → Bool → List EngineHandler → Nat → Nat →
      Except Unit SearchResults

/-- The configuration fields consumed by the search route
(`config::parser::Config`). -/
structure Config where
  binding_ip : String
  port : Nat
  style : Style
  safe_search : Nat
  upstream_search_engines : List EngineHandler
  aggregator_random_delay : Bool
  debug : Bool
  request_timeout : Nat

/-- Line-by-line scan of a filter list: each line is compiled as a regex (a
malformed line is a fatal error) and tested against the query; the first match
short-circuits with `true`.  Translates the loop body of
`is_match_from_filter_list`. -/
def is_match_lines (compile : String → Except Unit (String → Bool))
    (lines : List String) (query : String) : Except AppError Bool :=
  match lines with
  | [] => .ok false
  | l :: ls =>
    match compile l with
    | .error _ => .error .regex
    | .ok re => if re query then .ok true else is_match_lines compile ls query

/-- Translation of `is_match_from_filter_list(file_path, query)`: open the
file (failure is an io error) and scan it line by line. -/
def is_match_from_filter_list (env : Env) (path : String) (query : String) :
    Except AppError Bool :=
  match env.openLines path with
  | .error _ => .error .io
  | .ok lines => is_match_lines env.regexCompile lines query

/-- The call pattern `is_match_from_filter_list(file_path(ft)?, query)?` of
the `results` function: resolve the list path, then scan it. -/
def filterCheck (env : Env) (ft : FileType) (query : String) :
    Except AppError Bool :=
  match env.filePathOf ft with
  | .error _ => .error .path
  | .ok p => is_match_from_filter_list env p query

/-- Engine resolution of `results`: when the `appCookie` cookie is present its
engines are parsed and resolved through `EngineHandler::new`, names the
registry does not recognize being dropped by `filter_map`; when absent the
configured upstream engines are used. -/
def resolveCookieEngines (env : Env) (config : Config) :
    Except AppError (List EngineHandler) :=
  match env.reqCookie with
  | some s =>
    match env.parseCookie s with
    | .error _ => .error .serde
    | .ok cd => .ok (cd.engines.filterMap env.engineHandlerNew)
  | none => .ok config.upstream_search_engines

/-- The post-aggregate annotation of `results`: mark the aggregate `filtered`
when both the error list and the result list are empty, then store the
configured style. -/
def annotateResults (config : Config) (r : SearchResults) : SearchResults :=
  add_style config.style
    (if r.engineErrorsInfo.isEmpty && r.results.isEmpty then set_filtered r
     else r)

/-- The disallowed short-circuit value built by `results` when the
safe-search filter blocks the query. -/
def disallowedOutput (config : Config) (query : String) : SearchResults :=
  set_page_query query (add_style config.style (set_disallowed SearchResults.default))

/-- The aggregate arm of `results`: resolve the engine selection, invoke the
aggregator, annotate, serialize and write back to the cache; every `?` of the
source propagates as an error. -/
def aggregatePath (env : Env) (config : Config) (url query : String)
    (page safe_search : Nat) : Except AppError SearchResults × List Event :=
  match resolveCookieEngines env config with
  | .error e => (.error e, [])
  | .ok engines =>
    match env.aggregate query page config.aggregator_random_delay config.debug
        engines config.request_timeout safe_search with
    | .error _ => (.error .engine, [.aggregateCall engines])
    | .ok r0 =>
      let r := annotateResults config r0
      match env.serializeResults r with
      | .error _ => (.error .serde, [.aggregateCall engines])
      | .ok json =>
        match env.cacheWrite json url with
        | .error _ => (.error .pool, [.aggregateCall engines, .cacheWriteEvent url])
        | .ok _ => (.ok r, [.aggregateCall engines, .cacheWriteEvent url])

/-- The cache-miss arm of `results` (the `Err(_)` branch of the match on the
cached json): when `safe_search == 4` the blocklist is consulted, its result
assigned to `_flag`, and `_flag` is then reassigned to the negated allowlist
result — the blocklist outcome is discarded, exactly as in the source; when
the final flag is set the disallowed value is built, cached and returned,
otherwise control falls through to the aggregate arm. -/
def missPath (env : Env) (config : Config) (url query : String)
    (page safe_search : Nat) : Except AppError SearchResults × List Event :=
  if safe_search == 4 then
    match filterCheck env .blockList query with
    | .error e => (.error e, [.filterCheckEvent .blockList])
    | .ok _bflag =>
      match filterCheck env .allowList query with
      | .error e =>
        (.error e, [.filterCheckEvent .blockList, .filterCheckEvent .allowList])
      | .ok aflag =>
        let flag := !aflag
        if flag then
          let r := disallowedOutput config query
          match env.serializeResults r with
          | .error _ =>
            (.error .serde,
             [.filterCheckEvent .blockList, .filterCheckEvent .allowList])
          | .ok json =>
            match env.cacheWrite json url with
            | .error _ =>
              (.error .pool,
               [.filterCheckEvent .blockList, .filterCheckEvent .allowList,
                .cacheWriteEvent url])
            | .ok _ =>
              (.ok r,
               [.filterCheckEvent .blockList, .filterCheckEvent .allowList,
                .cacheWriteEvent url])
        else
          let p := aggregatePath env config url query page safe_search
          (p.fst,
           [Event.filterCheckEvent .blockList, Event.filterCheckEvent .allowList] ++ p.snd)
  else
    aggregatePath env config url query page safe_search

/-- Translation of the `results` function: read the cached json for the url;
on success deserialize it (a deserialization failure propagates as an error);
on any read failure run the cache-miss arm. -/
def resultsFn (env : Env) (config : Config) (url query : String)
    (page safe_search : Nat) : Except AppError SearchResults × List Event :=
  match env.cachedJson url with
  | .ok s =>
    (match env.deserializeResults s with
     | .ok r => .ok r
     | .error _ => .error .serde,
     [.cacheRead url])
  | .error _ =>
    let p := missPath env config url query page safe_search
    (p.fst, .cacheRead url :: p.snd)

/-- The deserialized query parameters of the search url (`SearchParams`):
`q`, `page` (a u32) and `safesearch` (a u8), all optional. -/
structure SearchParams where
  q : Option String
  page : Option Nat
  safesearch : Option Nat
deriving DecidableEq, Repr

/-- 2^32, the modulus of u32 arithmetic. -/
def U32MOD : Nat := 4294967296

/-- `page - 1` on a u32 under wraparound semantics. -/
def u32Pred (p : Nat) : Nat := (p + (U32MOD - 1)) % U32MOD

/-- `page + 1` on a u32 under wraparound semantics. -/
def u32Succ (p : Nat) : Nat := (p + 1) % U32MOD

/-- The url built by the `search` handler for one page invocation:
`http://{ip}:{port}/search?q={query}&page={page}&safesearch={safe_search}`. -/
def mkUrl (config : Config) (query : String) (page safe_search : Nat) : String :=
  "http://" ++ config.binding_ip ++ ":" ++ toString config.port ++
    "/search?q=" ++ query ++ "&page=" ++ toString page ++
    "&safesearch=" ++ toString safe_search

/-- The effective safe-search level computed by the `search` handler: a
configured level of 3 or 4 is used unconditionally; otherwise a per-request
value of 0–2 is accepted, any other per-request value maps to 1, and an
absent per-request value falls back to the configured level. -/
def effectiveSafeSearch (cfgLevel : Nat) (param : Option Nat) : Nat :=
  if 3 ≤ cfgLevel ∧ cfgLevel ≤ 4 then cfgLevel
  else
    match param with
    | some p => if p ≤ 2 then p else 1
    | none => cfgLevel

/-- Rust's `str::trim`: drop leading and trailing whitespace characters. -/
def rustTrim (s : String) : String :=
  ⟨((s.data.dropWhile Char.isWhitespace).reverse.dropWhile Char.isWhitespace).reverse⟩

/-- The responses the `search` handler can produce: a redirect to the home
page, an error response (a propagated `?`), or a rendered results page. -/
inductive SearchResponse
  | redirectHome
  | errorResponse (e : AppError)
  | page (r : SearchResults)
deriving DecidableEq, Repr

/-- Translation of the `search` handler, parameterized by the outcome of
`web::Query::<SearchParams>::from_query` (an external parser): a parse
failure propagates as an error response; an absent `q` or a `q` that trims
to empty redirects to `/`; otherwise three `results` invocations are issued
for pages `page - 1`, `page` and `page + 1` (u32 arithmetic, default page 1),
the middle outcome is rendered and the two prefetch outcomes are dropped.
The traces of the three invocations are returned alongside the response. -/
def searchRoute (env : Env) (config : Config)
    (parsed : Except AppError SearchParams) :
    SearchResponse × List (List Event) :=
  match parsed with
  | .error e => (.errorResponse e, [])
  | .ok params =>
    match params.q with
    | none => (.redirectHome, [])
    | some query =>
      if (rustTrim query).isEmpty then (.redirectHome, [])
      else
        let page := params.page.getD 1
        let safe_search := effectiveSafeSearch config.safe_search params.safesearch
        let prev := resultsFn env config (mkUrl config query (u32Pred page) safe_search)
          query (u32Pred page) safe_search
        let curr := resultsFn env config (mkUrl config query page safe_search)
          query page safe_search
        let next := resultsFn env config (mkUrl config query (u32Succ page) safe_search)
          query (u32Succ page) safe_search
        (match curr.fst with
         | .ok r => .page r
         | .error e => .errorResponse e,
         [prev.snd, curr.snd, next.snd])

/-- Whether event `a` occurs strictly before event `b` in a trace (both
present, first occurrence of `a` at a smaller index). -/
def eventBefore (a b : Event) (tr : List Event) : Bool :=
  decide (a ∈ tr) && decide (b ∈ tr) && decide (tr.indexOf a < tr.indexOf b)

/-- A concrete configuration used to exercise the model. -/
def cfg0 : Config :=
  { binding_ip := "127.0.0.1", port := 8080,
    style := ⟨"simple", "catppuccin-mocha"⟩, safe_search := 1,
    upstream_search_engines := [⟨"duckduckgo"⟩, ⟨"searx"⟩],
    aggregator_random_delay := false, debug := false, request_timeout := 30 }

/-- A concrete environment: the cache read always misses, the cache write
succeeds, both filter-list files are present and empty, regex compilation
succeeds with literal-equality matching, no cookie is set, and the aggregator
returns the empty aggregate. -/
def env0 : Env :=
  { cachedJson := fun _ => .error .cacheMiss,
    deserializeResults := fun _ => .error (),
    serializeResults := fun _ => .ok "json",
    cacheWrite := fun _ _ => .ok (),
    filePathOf := fun ft =>
      match ft with
      | .blockList => .ok "blocklist.txt"
      | .allowList => .ok "allowlist.txt"
      | .theme => .ok "theme",
    openLines := fun _ => .ok [],
    regexCompile := fun pat => .ok (fun s => s == pat),
    reqCookie := none,
    parseCookie := fun _ => .error (),
    engineHandlerNew := fun n =>
      if n == "duckduckgo" then some ⟨"duckduckgo"⟩
      else if n == "searx" then some ⟨"searx"⟩ else none,
    aggregate := fun _ _ _ _ _ _ _ => .ok SearchResults.default }

/-- `env0` with a failing cache write. -/
def envC2 : Env := { env0 with cacheWrite := fun _ _ => .error .connectionError }

/-- `env0` with a cache hit whose stored value does not deserialize. -/
def envC3 : Env := { env0 with cachedJson := fun _ => .ok "garbage" }

/-- `env0` with a blocklist file containing the single pattern `sex` (and an
empty allowlist). -/
def envC7 : Env :=
  { env0 with openLines := fun p =>
      if p == "blocklist.txt" then .ok ["sex"] else .ok [] }

/-- `env0` with an `appCookie` selecting one recognized and one unknown
engine name. -/
def envC9 : Env :=
  { env0 with
    reqCookie := some "ck",
    parseCookie := fun _ => .ok ⟨"simple", "catppuccin-mocha", ["duckduckgo", "bogus"]⟩ }

/-- Unfolding equation for `resultsFn` when the cache read fails: the miss
arm runs after the cache read. -/
theorem resultsFn_readError (env : Env) (config : Config) (url query : String)
    (page safe_search : Nat) (ce : PoolError)
    (hc : env.cachedJson url = .error ce) :
    resultsFn env config url query page safe_search =
      ((missPath env config url query page safe_search).fst,
       .cacheRead url :: (missPath env config url query page safe_search).snd) := by
  unfold resultsFn
  rw [hc]

/-- Unfolding equation for `resultsFn` when the cache read succeeds: the
trace is the bare cache read. -/
theorem resultsFn_readOk_snd (env : Env) (config : Config) (url query : String)
    (page safe_search : Nat) (s : String)
    (hc : env.cachedJson url = .ok s) :
    (resultsFn env config url query page safe_search).snd = [.cacheRead url] := by
  unfold resultsFn
  rw [hc]

/-! ## Claim C1 -/

/-- C1: the claim predicts that at maximum safe-search a query matching
neither the blocklist nor the allowlist is not marked disallowed.  The code
assigns the blocklist outcome to `_flag` and immediately overwrites `_flag`
with the negated allowlist outcome, so the blocklist result is discarded: at
`env0` — cache miss, both filter-list files present and empty, so the query
matches neither list — the route still returns the `disallowed` value and
never invokes the aggregator. -/
theorem C1_code_behavior :
    filterCheck env0 .blockList "football" = .ok false ∧
    filterCheck env0 .allowList "football" = .ok false ∧
    (resultsFn env0 cfg0 "u" "football" 1 4).fst =
      .ok (disallowedOutput cfg0 "football") ∧
    (disallowedOutput cfg0 "football").disallowed = true ∧
    (∀ es : List EngineHandler,
      Event.aggregateCall es ∉ (resultsFn env0 cfg0 "u" "football" 1 4).snd) := by
  refine ⟨by decide, by decide, by decide, by decide, ?_⟩
  intro es
  have h : (resultsFn env0 cfg0 "u" "football" 1 4).snd =
      [.cacheRead "u", .filterCheckEvent .blockList, .filterCheckEvent .allowList,
       .cacheWriteEvent "u"] := by decide
  rw [h]
  simp

/-! ## Claim C2 -/

/-- C2 (counterexample): the claim predicts that a cache-write failure does
not fail the request.  At `envC2` (cache miss, aggregator succeeds, cache
write fails) the route propagates the write failure with `?` and returns an
error instead of the already-computed SearchResults. -/
theorem C2_counterexample :
    (resultsFn envC2 cfg0 "u" "q" 1 1).fst = .error .pool ∧
    ∀ r : SearchResults, (resultsFn envC2 cfg0 "u" "q" 1 1).fst ≠ .ok r := by
  refine ⟨by decide, ?_⟩
  intro r h
  have h2 : (resultsFn envC2 cfg0 "u" "q" 1 1).fst = .error .pool := by decide
  rw [h2] at h
  exact Except.noConfusion h

/-- C2 (amended): a failure of the cache write fails the user-visible
request at both call sites — the aggregate path and the disallowed
short-circuit path both run `cache_results(...).await?`, so the error
propagates and the already-computed SearchResults is discarded. -/
theorem C2_amended (env : Env) (config : Config) (url query : String)
    (page safe_search : Nat) :
    (∀ (ce : PoolError) (engines : List EngineHandler) (r0 : SearchResults)
        (json : String) (we : PoolError),
      env.cachedJson url = .error ce → safe_search ≠ 4 →
      resolveCookieEngines env config = .ok engines →
      env.aggregate query page config.aggregator_random_delay config.debug
        engines config.request_timeout safe_search = .ok r0 →
      env.serializeResults (annotateResults config r0) = .ok json →
      env.cacheWrite json url = .error we →
      (resultsFn env config url query page safe_search).fst = .error .pool) ∧
    (∀ (ce : PoolError) (bflag : Bool) (json : String) (we : PoolError),
      env.cachedJson url = .error ce →
      filterCheck env .blockList query = .ok bflag →
      filterCheck env .allowList query = .ok false →
      env.serializeResults (disallowedOutput config query) = .ok json →
      env.cacheWrite json url = .error we →
      (resultsFn env config url query page 4).fst = .error .pool) := by
  constructor
  · intro ce engines r0 json we hread hss heng hagg hser hwrite
    have hb : (safe_search == 4) = false := by
      simp [Nat.beq_eq_true_eq, hss]
    unfold resultsFn missPath aggregatePath
    rw [hread]
    simp only [hb, heng, hagg, hser, hwrite]
    simp
  · intro ce bflag json we hread hblock hallow hser hwrite
    rw [resultsFn_readError env config url query page 4 ce hread]
    unfold missPath
    simp only [hblock, hallow, hser, hwrite]
    simp

/-- Witness for `C2_amended` at the concrete environment `envC2` (whose
cache write fails): the aggregate path at safe-search 1 and the disallowed
path at safe-search 4 both surface the write failure. -/
theorem C2_amended_witness :
    (resultsFn envC2 cfg0 "u" "q" 1 1).fst = .error .pool ∧
    (resultsFn envC2 cfg0 "u" "q" 1 4).fst = .error .pool := by
  have h := C2_amended envC2 cfg0 "u" "q" 1 1
  exact ⟨h.1 .cacheMiss cfg0.upstream_search_engines SearchResults.default
      "json" .connectionError rfl (by decide) rfl rfl rfl rfl,
    h.2 .cacheMiss false "json" .connectionError rfl (by decide) (by decide)
      rfl rfl⟩

/-! ## Claim C3 -/

/-- C3 (counterexample): the claim predicts that a stored value failing to
deserialize is treated as a cache miss (recompute).  At `envC3` the cache
read succeeds with a value that does not deserialize; the route returns a
serde error to the caller and performs no recomputation (the trace stops at
the cache read). -/
theorem C3_counterexample :
    (resultsFn envC3 cfg0 "u" "q" 1 1).fst = .error .serde ∧
    (resultsFn envC3 cfg0 "u" "q" 1 1).snd = [.cacheRead "u"] := by
  exact ⟨by decide, by decide⟩

/-- C3 (amended): every failure of the cache read itself (key absent,
connection error) is treated identically — the route behaves the same for
any `PoolError` and proceeds to recompute — but a stored value that fails to
deserialize propagates a serde error to the caller instead of being treated
as a miss. -/
theorem C3_amended (env : Env) (config : Config) (url query : String)
    (page safe_search : Nat) :
    (∀ e1 e2 : PoolError,
      resultsFn { env with cachedJson := fun _ => .error e1 } config url query
        page safe_search =
      resultsFn { env with cachedJson := fun _ => .error e2 } config url query
        page safe_search) ∧
    (∀ s, env.cachedJson url = .ok s → env.deserializeResults s = .error () →
      (resultsFn env config url query page safe_search).fst = .error .serde) := by
  constructor
  · intro e1 e2
    rfl
  · intro s h1 h2
    unfold resultsFn
    rw [h1]
    simp only [h2]

/-- Witness for `C3_amended`: the two read-failure kinds give the same run,
and the garbage cache hit of `envC3` surfaces a serde error. -/
theorem C3_amended_witness :
    (resultsFn { env0 with cachedJson := fun _ => .error .cacheMiss } cfg0 "u"
        "q" 1 1 =
      resultsFn { env0 with cachedJson := fun _ => .error .connectionError }
        cfg0 "u" "q" 1 1) ∧
    (resultsFn envC3 cfg0 "u" "q" 1 1).fst = .error .serde :=
  ⟨(C3_amended env0 cfg0 "u" "q" 1 1).1 .cacheMiss .connectionError,
   (C3_amended envC3 cfg0 "u" "q" 1 1).2 "garbage" rfl rfl⟩

/-! ## Claim C4 -/

/-- Helper: in a trace headed by `a`, any other event `b` present in the
trace occurs strictly after `a`. -/
theorem eventBefore_of_head (a b : Event) (t : List Event) (hne : b ≠ a)
    (hmem : b ∈ a :: t) : eventBefore a b (a :: t) = true := by
  have hbt : b ∈ t := by
    rcases List.mem_cons.mp hmem with h | h
    · exact absurd h hne
    · exact h
  unfold eventBefore
  rw [Bool.and_eq_true, Bool.and_eq_true]
  refine ⟨⟨decide_eq_true (List.mem_cons_self a t), decide_eq_true hmem⟩,
    decide_eq_true ?_⟩
  rw [List.indexOf_cons_self, List.indexOf_cons_ne t (Ne.symm hne)]
  exact Nat.succ_pos _

/-- C4 (counterexample): the claim predicts that at maximum safe-search the
filter lists are consulted before the cache is read.  At `env0` with
`safe_search = 4` both operations occur in the trace, and the blocklist check
does not precede the cache read. -/
theorem C4_counterexample :
    eventBefore (.filterCheckEvent .blockList) (.cacheRead "u")
      (resultsFn env0 cfg0 "u" "q" 1 4).snd = false ∧
    Event.filterCheckEvent .blockList ∈ (resultsFn env0 cfg0 "u" "q" 1 4).snd ∧
    Event.cacheRead "u" ∈ (resultsFn env0 cfg0 "u" "q" 1 4).snd := by
  refine ⟨by decide, by decide, by decide⟩

/-- C4 (amended): the cache read is the first operation of every `results`
run, and any filter-list check occurs strictly after it — it only happens
once the cache read has failed: the order is
Init → CacheLookup → (miss) → FilterCheck. -/
theorem C4_amended (env : Env) (config : Config) (url query : String)
    (page safe_search : Nat) :
    (resultsFn env config url query page safe_search).snd.head? =
      some (.cacheRead url) ∧
    ∀ ft : FileType,
      Event.filterCheckEvent ft ∈
          (resultsFn env config url query page safe_search).snd →
        (∃ e, env.cachedJson url = .error e) ∧
        eventBefore (.cacheRead url) (.filterCheckEvent ft)
          (resultsFn env config url query page safe_search).snd = true := by
  cases hc : env.cachedJson url with
  | ok s =>
    rw [resultsFn_readOk_snd env config url query page safe_search s hc]
    refine ⟨rfl, ?_⟩
    intro ft hmem
    simp at hmem
  | error ce =>
    rw [resultsFn_readError env config url query page safe_search ce hc]
    refine ⟨rfl, ?_⟩
    intro ft hmem
    refine ⟨⟨ce, rfl⟩, ?_⟩
    exact eventBefore_of_head _ _ _ (by simp) hmem

/-- Witness for `C4_amended` at `env0` with maximum safe-search, where a
filter check does occur. -/
theorem C4_amended_witness :
    (resultsFn env0 cfg0 "u" "q" 1 4).snd.head? = some (.cacheRead "u") ∧
    eventBefore (.cacheRead "u") (.filterCheckEvent .blockList)
      (resultsFn env0 cfg0 "u" "q" 1 4).snd = true :=
  ⟨(C4_amended env0 cfg0 "u" "q" 1 4).1,
   ((C4_amended env0 cfg0 "u" "q" 1 4).2 .blockList (by decide)).2⟩

/-! ## Claim C5 -/

/-- C5 (counterexample): the claim predicts that an invalid per-request
safe-search value falls back to the server-configured level.  With a
configured level of 0 and a per-request value of 5 the handler computes 1,
not the configured 0. -/
theorem C5_counterexample :
    effectiveSafeSearch 0 (some 5) = 1 ∧ effectiveSafeSearch 0 (some 5) ≠ 0 := by
  refine ⟨by decide, by decide⟩

/-- C5 (amended): a configured level of 3 or 4 is used unconditionally;
otherwise a per-request value of 0–2 is accepted, a present but invalid
per-request value (3 or above) is clamped to the constant 1, and only an
absent per-request value falls back to the configured level. -/
theorem C5_amended (cfgLevel : Nat) (param : Option Nat) :
    ((3 ≤ cfgLevel ∧ cfgLevel ≤ 4) →
      effectiveSafeSearch cfgLevel param = cfgLevel) ∧
    (¬(3 ≤ cfgLevel ∧ cfgLevel ≤ 4) →
      (param = none → effectiveSafeSearch cfgLevel param = cfgLevel) ∧
      (∀ p, param = some p → p ≤ 2 → effectiveSafeSearch cfgLevel param = p) ∧
      (∀ p, param = some p → 2 < p → effectiveSafeSearch cfgLevel param = 1)) := by
  unfold effectiveSafeSearch
  constructor
  · intro h
    rw [if_pos h]
  · intro h
    rw [if_neg h]
    refine ⟨fun hp => by rw [hp], fun p hp hle => ?_, fun p hp hgt => ?_⟩
    · rw [hp]
      simp [hle]
    · rw [hp]
      simp [Nat.not_le_of_lt hgt]

/-- Witness for `C5_amended` at the four representative inputs. -/
theorem C5_amended_witness :
    effectiveSafeSearch 0 (some 5) = 1 ∧ effectiveSafeSearch 4 (some 0) = 4 ∧
    effectiveSafeSearch 1 none = 1 ∧ effectiveSafeSearch 0 (some 2) = 2 :=
  ⟨((C5_amended 0 (some 5)).2 (by decide)).2.2 5 rfl (by decide),
   (C5_amended 4 (some 0)).1 (by decide),
   ((C5_amended 1 none).2 (by decide)).1 rfl,
   ((C5_amended 0 (some 2)).2 (by decide)).2.1 2 rfl (by decide)⟩

/-! ## Claim C6 -/

/-- C6 (counterexample): the claim predicts that malformed query parameters
also yield a redirect to the home page.  A parameter-parse failure is
propagated by `?` and produces an error response, not a redirect. -/
theorem C6_counterexample :
    (searchRoute env0 cfg0 (.error .serde)).fst = .errorResponse .serde ∧
    (searchRoute env0 cfg0 (.error .serde)).fst ≠ .redirectHome := by
  refine ⟨by decide, by decide⟩

/-- C6 (amended): an absent `q`, or a `q` that trims to the empty string,
yields a redirect to the home page; a malformed query string (a parameter
parse failure) instead propagates as an error response. -/
theorem C6_amended (env : Env) (config : Config) (e : AppError)
    (params : SearchParams) :
    (searchRoute env config (.error e)).fst = .errorResponse e ∧
    (params.q = none → (searchRoute env config (.ok params)).fst = .redirectHome) ∧
    (∀ q, params.q = some q → (rustTrim q).isEmpty = true →
      (searchRoute env config (.ok params)).fst = .redirectHome) := by
  obtain ⟨pq, pp, ps⟩ := params
  refine ⟨rfl, ?_, ?_⟩
  · intro h
    cases h
    rfl
  · intro q hq ht
    cases hq
    simp [searchRoute, ht]

/-- Witness for `C6_amended`: a parse failure errors, an absent `q` and a
whitespace-only `q` redirect. -/
theorem C6_amended_witness :
    (searchRoute env0 cfg0 (.error .serde)).fst = .errorResponse .serde ∧
    (searchRoute env0 cfg0 (.ok ⟨none, none, none⟩)).fst = .redirectHome ∧
    (searchRoute env0 cfg0 (.ok ⟨some "  ", none, none⟩)).fst = .redirectHome :=
  ⟨(C6_amended env0 cfg0 .serde ⟨none, none, none⟩).1,
   (C6_amended env0 cfg0 .serde ⟨none, none, none⟩).2.1 rfl,
   (C6_amended env0 cfg0 .serde ⟨some "  ", none, none⟩).2.2 "  " rfl (by decide)⟩

/-! ## Claim C7 -/

/-- C7: on a cache miss with `safe_search = 4`, a query that matches a
blocklist pattern and no allowlist pattern short-circuits: the route returns
the `disallowed` SearchResults and the aggregator is never invoked (no
`aggregateCall` event appears in the trace). -/
theorem C7_short_circuit (env : Env) (config : Config) (url query : String)
    (page : Nat) (ce : PoolError) (json : String)
    (hread : env.cachedJson url = .error ce)
    (hblock : filterCheck env .blockList query = .ok true)
    (hallow : filterCheck env .allowList query = .ok false)
    (hser : env.serializeResults (disallowedOutput config query) = .ok json)
    (hwrite : env.cacheWrite json url = .ok ()) :
    (resultsFn env config url query page 4).fst =
      .ok (disallowedOutput config query) ∧
    (disallowedOutput config query).disallowed = true ∧
    ∀ es : List EngineHandler,
      Event.aggregateCall es ∉ (resultsFn env config url query page 4).snd := by
  have hrun : resultsFn env config url query page 4 =
      (.ok (disallowedOutput config query),
       [.cacheRead url, .filterCheckEvent .blockList, .filterCheckEvent .allowList,
        .cacheWriteEvent url]) := by
    rw [resultsFn_readError env config url query page 4 ce hread]
    unfold missPath
    simp only [hblock, hallow, hser, hwrite]
    simp
  refine ⟨by rw [hrun], rfl, ?_⟩
  intro es
  rw [hrun]
  simp

/-- Witness for `C7_short_circuit` at `envC7`, whose blocklist file holds the
pattern `sex` and whose allowlist file is empty, with the query `sex`. -/
theorem C7_witness :
    (resultsFn envC7 cfg0 "u" "sex" 1 4).fst = .ok (disallowedOutput cfg0 "sex") ∧
    (disallowedOutput cfg0 "sex").disallowed = true ∧
    Event.aggregateCall [] ∉ (resultsFn envC7 cfg0 "u" "sex" 1 4).snd := by
  have h := C7_short_circuit envC7 cfg0 "u" "sex" 1 .cacheMiss "json" rfl
    (by decide) (by decide) rfl rfl
  exact ⟨h.1, h.2.1, h.2.2 []⟩

/-! ## Claim C8 -/

/-- C8: on the cache-miss aggregate path, the `filtered` flag of the returned
aggregate is set exactly when the aggregator returned no results and no
per-engine errors; with at least one EngineError present (or any result) it
stays unset.  The hypothesis `r0.filtered = false` is modelled from the spec:
the aggregator constructs its output with both flags unset. -/
theorem C8_filtered_iff (env : Env) (config : Config) (url query : String)
    (page safe_search : Nat) (ce : PoolError) (engines : List EngineHandler)
    (r0 : SearchResults) (json : String)
    (hread : env.cachedJson url = .error ce)
    (hss : safe_search ≠ 4)
    (heng : resolveCookieEngines env config = .ok engines)
    (hagg : env.aggregate query page config.aggregator_random_delay config.debug
      engines config.request_timeout safe_search = .ok r0)
    (hflag : r0.filtered = false)
    (hser : env.serializeResults (annotateResults config r0) = .ok json)
    (hwrite : env.cacheWrite json url = .ok ()) :
    (resultsFn env config url query page safe_search).fst =
      .ok (annotateResults config r0) ∧
    ((annotateResults config r0).filtered = true ↔
      r0.results.isEmpty = true ∧ r0.engineErrorsInfo.isEmpty = true) := by
  constructor
  · have hb : (safe_search == 4) = false := by simp [hss]
    rw [resultsFn_readError env config url query page safe_search ce hread]
    unfold missPath aggregatePath
    simp only [hb, heng, hagg, hser, hwrite]
    simp
  · unfold annotateResults add_style set_filtered
    rcases he : r0.engineErrorsInfo.isEmpty <;>
      rcases hr : r0.results.isEmpty <;> simp [he, hr, hflag]

/-- Witness for `C8_filtered_iff`: at `env0` the aggregator returns the empty
aggregate with no errors, and the returned value is marked filtered. -/
theorem C8_witness :
    (resultsFn env0 cfg0 "u" "q" 1 1).fst =
      .ok (annotateResults cfg0 SearchResults.default) ∧
    ((annotateResults cfg0 SearchResults.default).filtered = true ↔
      SearchResults.default.results.isEmpty = true ∧
      SearchResults.default.engineErrorsInfo.isEmpty = true) :=
  C8_filtered_iff env0 cfg0 "u" "q" 1 1 .cacheMiss
    cfg0.upstream_search_engines SearchResults.default "json" rfl (by decide)
    rfl rfl rfl rfl rfl

/-! ## Claim C9 -/

/-- Helper: when engine resolution succeeds, the aggregate arm records an
`aggregateCall` with the resolved handler set, whatever the outcomes of the
aggregator, serializer and cache write. -/
theorem aggregateCall_mem_aggregatePath (env : Env) (config : Config)
    (url query : String) (page safe_search : Nat) (engines : List EngineHandler)
    (hres : resolveCookieEngines env config = .ok engines) :
    Event.aggregateCall engines ∈
      (aggregatePath env config url query page safe_search).snd := by
  unfold aggregatePath
  rw [hres]
  cases hagg : env.aggregate query page config.aggregator_random_delay
      config.debug engines config.request_timeout safe_search with
  | error e => simp [hagg]
  | ok r0 =>
    cases hser : env.serializeResults (annotateResults config r0) with
    | error e2 => simp [hagg, hser]
    | ok json =>
      cases hw : env.cacheWrite json url with
      | error e3 => simp [hagg, hser, hw]
      | ok u => simp [hagg, hser, hw]

/-- C9: the engine names taken from the user cookie are resolved through
`EngineHandler::new` under `filter_map`, so unrecognized names are dropped
silently: resolution never errors, the resolved sequence holds exactly the
handlers of the recognized names, and the request proceeds — the aggregator
is invoked with the (possibly empty) resolved handler set. -/
theorem C9_engine_resolution (env : Env) (config : Config)
    (url query s : String) (page safe_search : Nat) (cd : CookieData)
    (ce : PoolError)
    (hck : env.reqCookie = some s)
    (hparse : env.parseCookie s = .ok cd)
    (hread : env.cachedJson url = .error ce)
    (hss : safe_search ≠ 4) :
    resolveCookieEngines env config =
      .ok (cd.engines.filterMap env.engineHandlerNew) ∧
    (∀ h : EngineHandler,
      h ∈ cd.engines.filterMap env.engineHandlerNew ↔
        ∃ n ∈ cd.engines, env.engineHandlerNew n = some h) ∧
    Event.aggregateCall (cd.engines.filterMap env.engineHandlerNew) ∈
      (resultsFn env config url query page safe_search).snd := by
  have hres : resolveCookieEngines env config =
      .ok (cd.engines.filterMap env.engineHandlerNew) := by
    unfold resolveCookieEngines
    rw [hck]
    simp only [hparse]
  refine ⟨hres, fun h => List.mem_filterMap, ?_⟩
  have hb : (safe_search == 4) = false := by simp [hss]
  rw [resultsFn_readError env config url query page safe_search ce hread]
  simp only [List.mem_cons]
  right
  unfold missPath
  simp only [hb, Bool.false_eq_true, if_false]
  exact aggregateCall_mem_aggregatePath env config url query page safe_search _ hres

/-- Witness for `C9_engine_resolution` at `envC9`, whose cookie selects the
recognized `duckduckgo` and the unknown `bogus`: only the recognized handler
survives and the aggregator is called with it. -/
theorem C9_witness :
    resolveCookieEngines envC9 cfg0 = .ok [⟨"duckduckgo"⟩] ∧
    Event.aggregateCall [⟨"duckduckgo"⟩] ∈ (resultsFn envC9 cfg0 "u" "q" 1 1).snd := by
  have h := C9_engine_resolution envC9 cfg0 "u" "q" "ck" 1 1
    ⟨"simple", "catppuccin-mocha", ["duckduckgo", "bogus"]⟩ .cacheMiss
    rfl rfl rfl (by decide)
  exact ⟨h.1, h.2.2⟩

/-! ## Claim C10 -/

/-- C10: with a `page` parameter of 0, the previous-page prefetch computes
`page - 1` on a u32, which wraps around: the previous-page invocation of
`results` — and the cache key embedded in its url — uses page number
`2^32 - 1 = 4294967295` rather than a page below the current one. -/
theorem C10_page_underflow (env : Env) (config : Config) (query : String)
    (pss : Option Nat) (hq : (rustTrim query).isEmpty = false) :
    u32Pred 0 = 4294967295 ∧
    (searchRoute env config (.ok ⟨some query, some 0, pss⟩)).snd.head? =
      some ((resultsFn env config
        (mkUrl config query 4294967295 (effectiveSafeSearch config.safe_search pss))
        query 4294967295 (effectiveSafeSearch config.safe_search pss)).snd) := by
  have hp : u32Pred 0 = 4294967295 := by decide
  refine ⟨hp, ?_⟩
  unfold searchRoute
  simp only [hq, Bool.false_eq_true, if_false, Option.getD_some]
  rw [hp]
  rfl

/-- Witness for `C10_page_underflow` at `env0`, `cfg0`, query `q`. -/
theorem C10_witness :
    u32Pred 0 = 4294967295 ∧
    (searchRoute env0 cfg0 (.ok ⟨some "q", some 0, none⟩)).snd.head? =
      some ((resultsFn env0 cfg0
        (mkUrl cfg0 "q" 4294967295 (effectiveSafeSearch cfg0.safe_search none))
        "q" 4294967295 (effectiveSafeSearch cfg0.safe_search none)).snd) :=
  C10_page_underflow env0 cfg0 "q" none (by decide)

end Websurfx
